import Mathlib

/-!
Shallow embedding of the SBI location-inference engine
(src/sbi_project/sbi_app/utils.py) for checking the natural-language
specification against the code.

Conventions of the embedding:
* Python floats are modelled as rationals (ℚ); all the arithmetic the
  claims are about is exact in the source formulas.
* Timestamps and the reference instant are epoch seconds (Int), always
  UTC: the pipeline localizes naive timestamps to UTC (utils.py lines
  52-56) before any per-event work, so an instant fully determines the
  `.hour` field used by the night boost.
* `timezone.now()` (the wall clock read in process_user_data, line 127)
  is modelled as an explicit `now : Int` argument threaded through the
  pipeline; one run corresponds to one clock instant.
* A record missing its `event_type` key (pandas fills NaN) is modelled
  with `Option String`: `none` stands for the NaN cell, and the dict
  lookup `event_weights.get(..., 0.5)` returns the default for it.
* pandas `DataFrame.unique()` returns values in order of first
  appearance; `uniques` mirrors that.
-/

namespace SBI

/-- One raw input record as handed to `process_kalman_cluster_fusion`
(see `UserEvent.to_dict` in models.py).  `event_type = none` models a
record whose event_type key is absent (a NaN cell in the DataFrame). -/
structure RawRecord where
  user_id : String
  event_type : Option String
  timestamp : Int
  lat : ℚ
  lon : ℚ
deriving DecidableEq

/-- A record together with the DBSCAN cluster label column added at
utils.py line 70 (`df['cluster'] = dbscan.fit_predict(coordinates)`). -/
structure LabeledEvent where
  user_id : String
  event_type : Option String
  timestamp : Int
  lat : ℚ
  lon : ℚ
  cluster : Int
deriving DecidableEq

/-- The weight dictionary lookup `event_weights.get(event_type, 0.5)`
(utils.py lines 59-63 and 131): upi 1.0, app_open 0.8, login 0.6,
anything else (including a missing field) 0.5. -/
def eventWeightsGet : Option String → ℚ
  | some "upi" => 1
  | some "app_open" => 4 / 5
  | some "login" => 3 / 5
  | _ => 1 / 2

/-- `(current_time - event_time).total_seconds() / 3600` (utils.py line 138). -/
def timeDiffHours (now ts : Int) : ℚ := ((now - ts : Int) : ℚ) / 3600

/-- `time_decay = max(0, 1 - (time_diff / 72))` (utils.py line 139). -/
def timeDecay (now ts : Int) : ℚ := max 0 (1 - timeDiffHours now ts / 72)

/-- `event_time.hour` of a UTC instant given as epoch seconds
(utils.py line 142; timestamps are UTC after lines 52-56). -/
def eventHour (ts : Int) : Int := (ts % 86400) / 3600

/-- `night_boost = 1.2 if (event_hour >= 22 or event_hour <= 6) else 1.0`
(utils.py line 143). -/
def nightBoost (ts : Int) : ℚ :=
  if 22 ≤ eventHour ts ∨ eventHour ts ≤ 6 then 6 / 5 else 1

/-- `final_weight = base_weight * time_decay * night_boost` (utils.py line 145). -/
def finalWeight (t : Option String) (now ts : Int) : ℚ :=
  eventWeightsGet t * timeDecay now ts * nightBoost ts

/-- One entry of the `weighted_events` list built at utils.py lines 146-156. -/
structure WeightedEvent where
  event_type : Option String
  timestamp : Int
  lat : ℚ
  lon : ℚ
  cluster : Int
  base_weight : ℚ
  time_decay : ℚ
  night_boost : ℚ
  final_weight : ℚ
deriving DecidableEq

/-- Builds one `weighted_events` entry (utils.py lines 130-156). -/
def mkWeightedEvent (now : Int) (e : LabeledEvent) : WeightedEvent :=
  { event_type := e.event_type
    timestamp := e.timestamp
    lat := e.lat
    lon := e.lon
    cluster := e.cluster
    base_weight := eventWeightsGet e.event_type
    time_decay := timeDecay now e.timestamp
    night_boost := nightBoost e.timestamp
    final_weight := finalWeight e.event_type now e.timestamp }

/-- One element of `cluster_predictions` (utils.py lines 174-180). -/
structure ClusterPrediction where
  cluster_id : Int
  predicted_lat : ℚ
  predicted_lon : ℚ
  event_count : Nat
  confidence : ℚ
deriving DecidableEq

/-- First-appearance-order deduplication, as pandas `Series.unique`
returns values; `seen` accumulates the values already emitted. -/
def uniquesAux {α : Type} [DecidableEq α] (seen : List α) : List α → List α
  | [] => []
  | c :: rest =>
      if c ∈ seen then uniquesAux seen rest
      else c :: uniquesAux (c :: seen) rest

/-- `Series.unique()`: the distinct values in order of first appearance. -/
def uniques {α : Type} [DecidableEq α] (l : List α) : List α := uniquesAux [] l

/-- The body of the per-cluster loop at utils.py lines 164-180: member
events of the cluster, their event-type weights, and (when the weight
list is nonempty, the `if weights:` guard) the np.average weighted
centroid and np.mean confidence. -/
def clusterPredictionFor (clusters : List LabeledEvent) (cid : Int) :
    Option ClusterPrediction :=
  let cluster_events := clusters.filter (fun e => decide (e.cluster = cid))
  let weights := cluster_events.map (fun e => eventWeightsGet e.event_type)
  if weights.isEmpty then none
  else some
    { cluster_id := cid
      predicted_lat :=
        (List.zipWith (· * ·) weights (cluster_events.map (fun e => e.lat))).sum
          / weights.sum
      predicted_lon :=
        (List.zipWith (· * ·) weights (cluster_events.map (fun e => e.lon))).sum
          / weights.sum
      event_count := cluster_events.length
      confidence := weights.sum / weights.length }

/-- Python `max(cluster_predictions, key=lambda x: x['confidence'])`
(utils.py line 184): returns the first element of maximal confidence
(later elements replace the current best only when strictly greater). -/
def pyMaxByConfidence : List ClusterPrediction → Option ClusterPrediction
  | [] => none
  | p :: ps =>
      some (ps.foldl (fun best q => if best.confidence < q.confidence then q else best) p)

/-- The per-user result dictionary of `process_user_data`
(utils.py lines 191-203), restricted to the fields the claims are about. -/
structure UserResult where
  user_id : String
  total_events : Nat
  clusters_involved : Nat
  weighted_events : List WeightedEvent
  cluster_predictions : List ClusterPrediction
  primary_prediction : Option ClusterPrediction
deriving DecidableEq

/-- `process_user_data(user_data, event_weights)` (utils.py lines 122-203),
with the `timezone.now()` read at line 127 made explicit as `now`. -/
def processUserData (user_data : List LabeledEvent) (now : Int) : UserResult :=
  let weighted_events := user_data.map (mkWeightedEvent now)
  let clusters := user_data.filter (fun e => decide (e.cluster ≠ -1))
  let cluster_predictions :=
    if 0 < clusters.length then
      (uniques (clusters.map (fun e => e.cluster))).filterMap
        (clusterPredictionFor clusters)
    else []
  { user_id := ((user_data.headD ⟨"", none, 0, 0, 0, 0⟩).user_id)
    total_events := user_data.length
    clusters_involved :=
      (uniques (user_data.map (fun e => e.cluster))).length -
        (if (-1 : Int) ∈ user_data.map (fun e => e.cluster) then 1 else 0)
    weighted_events := weighted_events
    cluster_predictions := cluster_predictions
    primary_prediction := pyMaxByConfidence cluster_predictions }

/-- Squared planar degree distance between two (lat, lon) points; sklearn
DBSCAN with the default euclidean metric compares distance ≤ eps, i.e.
squared distance ≤ eps². -/
def sqDist (p q : ℚ × ℚ) : ℚ := (p.1 - q.1) ^ 2 + (p.2 - q.2) ^ 2

/-- Indices of the points within eps = 0.01 of point `i` (the point
itself included), the DBSCAN neighborhood. -/
def neighborIdxs (pts : List (ℚ × ℚ)) (i : Nat) : List Nat :=
  (List.range pts.length).filter
    (fun j => decide (sqDist (pts.getD i (0, 0)) (pts.getD j (0, 0)) ≤ 1 / 10000))

/-- DBSCAN cluster expansion: pops the work queue, labelling noise points
as border points of cluster `c`, claiming unvisited points (label -2) and
enqueueing the neighborhoods of those that are core points.  `fuel`
bounds the recursion; `(n+1)^2` pops always suffice. -/
def dbscanExpand (pts : List (ℚ × ℚ)) (c : Int) :
    Nat → List Int → List Nat → List Int
  | 0, labels, _ => labels
  | _ + 1, labels, [] => labels
  | fuel + 1, labels, q :: queue =>
      let lq := labels.getD q (-2)
      if lq = -1 then dbscanExpand pts c fuel (labels.set q c) queue
      else if lq ≠ -2 then dbscanExpand pts c fuel labels queue
      else
        let labels' := labels.set q c
        let nq := neighborIdxs pts q
        if 2 ≤ nq.length then dbscanExpand pts c fuel labels' (queue ++ nq)
        else dbscanExpand pts c fuel labels' queue

/-- One step of the DBSCAN index scan: an unvisited point with fewer than
min_samples = 2 neighbors becomes noise (-1); an unvisited core point
founds the next cluster and expands it. -/
def dbscanStep (pts : List (ℚ × ℚ)) (st : List Int × Int) (i : Nat) :
    List Int × Int :=
  if st.1.getD i (-2) ≠ -2 then st
  else
    let nbrs := neighborIdxs pts i
    if nbrs.length < 2 then (st.1.set i (-1), st.2)
    else
      (dbscanExpand pts st.2 ((pts.length + 1) * (pts.length + 1))
        (st.1.set i st.2) nbrs, st.2 + 1)

/-- `DBSCAN(eps=0.01, min_samples=2).fit_predict(coordinates)`
(utils.py lines 69-70): density-based cluster labels, -1 for noise,
cluster ids 0, 1, ... in order of discovery by the index scan. -/
def dbscanFitPredict (pts : List (ℚ × ℚ)) : List Int :=
  ((List.range pts.length).foldl (dbscanStep pts)
    (List.replicate pts.length (-2), 0)).1

/-- Attaches the DBSCAN label column to the records, positionally
(utils.py line 70). -/
def labelEvents : List RawRecord → List Int → List LabeledEvent
  | [], _ => []
  | r :: rs, ls =>
      ⟨r.user_id, r.event_type, r.timestamp, r.lat, r.lon, ls.headD (-1)⟩ ::
        labelEvents rs ls.tail

/-- `np.mean` / pandas `.mean()` of a column. -/
def listMean (l : List ℚ) : ℚ := l.sum / l.length

/-- pandas `.min()` of a nonempty column. -/
def listMin : List ℚ → ℚ
  | [] => 0
  | x :: xs => xs.foldl min x

/-- pandas `.max()` of a nonempty column. -/
def listMax : List ℚ → ℚ
  | [] => 0
  | x :: xs => xs.foldl max x

/-- One `cluster_info` entry (utils.py lines 216-232). -/
structure ClusterInfo where
  cluster_id : Int
  event_count : Nat
  user_count : Nat
  centroid_lat : ℚ
  centroid_lon : ℚ
  min_lat : ℚ
  max_lat : ℚ
  min_lon : ℚ
  max_lon : ℚ
  users : List String
deriving DecidableEq

/-- `get_cluster_info(df)` (utils.py lines 206-234): per non-noise
cluster (noise id -1 is skipped at line 211), the centroid, bounding box
and member users, computed over the events labelled with that id. -/
def getClusterInfo (df : List LabeledEvent) : List ClusterInfo :=
  (uniques (df.map (fun e => e.cluster))).filterMap (fun cid =>
    if cid = -1 then none
    else
      let cluster_data := df.filter (fun e => decide (e.cluster = cid))
      some
        { cluster_id := cid
          event_count := cluster_data.length
          user_count := (uniques (cluster_data.map (fun e => e.user_id))).length
          centroid_lat := listMean (cluster_data.map (fun e => e.lat))
          centroid_lon := listMean (cluster_data.map (fun e => e.lon))
          min_lat := listMin (cluster_data.map (fun e => e.lat))
          max_lat := listMax (cluster_data.map (fun e => e.lat))
          min_lon := listMin (cluster_data.map (fun e => e.lon))
          max_lon := listMax (cluster_data.map (fun e => e.lon))
          users := uniques (cluster_data.map (fun e => e.user_id)) })

/-- One `location_predictions` entry (utils.py lines 297-318). -/
structure LocationPrediction where
  predicted_lat : ℚ
  predicted_lon : ℚ
  confidence : ℚ
  cluster_id : Option Int
  event_count : Nat
  prediction_type : String
deriving DecidableEq

/-- `generate_location_predictions(df, user_results)` (utils.py lines
289-320): each user's primary prediction restated, or the simple-average
fallback with fixed confidence 0.3 for users without one. -/
def generateLocationPredictions (df : List LabeledEvent)
    (user_results : List UserResult) : List (String × LocationPrediction) :=
  user_results.filterMap (fun r =>
    match r.primary_prediction with
    | some pred =>
        some (r.user_id,
          { predicted_lat := pred.predicted_lat
            predicted_lon := pred.predicted_lon
            confidence := pred.confidence
            cluster_id := some pred.cluster_id
            event_count := pred.event_count
            prediction_type := "cluster_based" })
    | none =>
        let user_data := df.filter (fun e => decide (e.user_id = r.user_id))
        if 0 < user_data.length then
          some (r.user_id,
            { predicted_lat := listMean (user_data.map (fun e => e.lat))
              predicted_lon := listMean (user_data.map (fun e => e.lon))
              confidence := 3 / 10
              cluster_id := none
              event_count := user_data.length
              prediction_type := "simple_average" })
        else none)

/-- `calculate_overall_confidence(user_results)` (utils.py lines
274-286): 0.0 for an empty list, otherwise the mean over users of the
primary prediction's confidence, counting 0.0 for a user whose
`primary_prediction` is None. -/
def calculateOverallConfidence (user_results : List UserResult) : ℚ :=
  if user_results.isEmpty then 0
  else
    listMean (user_results.map (fun r =>
      match r.primary_prediction with
      | some p => p.confidence
      | none => 0))

/-- The analysis report (utils.py lines 88-112), restricted to the
components the claims are about; `confidence` is `summary['confidence']`. -/
structure Report where
  confidence : ℚ
  user_results : List UserResult
  cluster_info : List ClusterInfo
  location_predictions : List (String × LocationPrediction)
deriving DecidableEq

/-- The return value of the entry point: either the report or the
`{'error': ...}` dictionary. -/
inductive AnalysisResult where
  | error (msg : String)
  | report (r : Report)
deriving DecidableEq

/-- `process_kalman_cluster_fusion(event_data)` (utils.py lines 34-119):
empty input short-circuits to the sentinel error dictionary (line 41);
otherwise DBSCAN labels all coordinates, each user's slice is processed,
and the report is assembled.  The wall-clock reads (`timezone.now()`) are
modelled by the explicit `now` argument.

pandas builds the DataFrame columns from the union of the records' keys,
so when no record at all carries the event_type key there is no
event_type column and the first access to it — `event['event_type']` at
utils.py line 131, inside the per-user loop — raises
`KeyError('event_type')`, caught at the pipeline boundary (line 117) and
returned as `{'error': "Processing failed: 'event_type'"}`; that is the
second branch below.  Only when at least one record carries the key do
the records without it hold NaN cells (modelled by `event_type = none`)
and take the 0.5 default weight downstream. -/
def processKalmanClusterFusion (event_data : List RawRecord) (now : Int) :
    AnalysisResult :=
  if event_data.isEmpty then .error "No data to process"
  else if event_data.all (fun r => r.event_type.isNone) then
    .error "Processing failed: 'event_type'"
  else
    let labels := dbscanFitPredict (event_data.map (fun r => (r.lat, r.lon)))
    let df := labelEvents event_data labels
    let user_results := (uniques (df.map (fun e => e.user_id))).map
      (fun u => processUserData (df.filter (fun e => decide (e.user_id = u))) now)
    .report
      { confidence := calculateOverallConfidence user_results
        user_results := user_results
        cluster_info := getClusterInfo df
        location_predictions := generateLocationPredictions df user_results }

/-- The labelled DataFrame the pipeline works on: the records with the
DBSCAN labels of their coordinates (utils.py lines 66-70). -/
def dfOf (records : List RawRecord) : List LabeledEvent :=
  labelEvents records
    (dbscanFitPredict (records.map (fun r => (r.lat, r.lon))))

/-- The `user_results` list of the report: one `process_user_data` result
per distinct user id, in order of first appearance (utils.py lines
78-82). -/
def userResultsOf (records : List RawRecord) (now : Int) : List UserResult :=
  (uniques ((dfOf records).map (fun e => e.user_id))).map
    (fun u => processUserData
      ((dfOf records).filter (fun e => decide (e.user_id = u))) now)

/-! ### Definitions following the specification's words (for comparison
with the code's behaviour), and projections of the result used to state
concrete claims. -/

/-- Modelled from the spec (§4.4): the centroid latitude as the weighted
average of the member events' lat using each event's final_weight as its
weight.  This follows the spec's words; the code's centroid is
`clusterPredictionFor`. -/
def specFinalWeightAvgLat (members : List LabeledEvent) (now : Int) : ℚ :=
  (members.map (fun e => finalWeight e.event_type now e.timestamp * e.lat)).sum /
    (members.map (fun e => finalWeight e.event_type now e.timestamp)).sum

/-- Modelled from the spec (§4.4): cluster confidence as the plain mean
of the member events' final_weight values. -/
def specFinalWeightMean (members : List LabeledEvent) (now : Int) : ℚ :=
  listMean (members.map (fun e => finalWeight e.event_type now e.timestamp))

/-- Modelled from the spec (§4.3): the event's local hour after
conversion to India Standard Time (UTC+05:30 = 19800 seconds). -/
def istHour (ts : Int) : Int := ((ts + 19800) % 86400) / 3600

/-- The member events behind the ClusterPrediction for cluster `cid` in a
user's data: the non-noise events carrying that cluster id (utils.py
lines 159 and 165). -/
def clusterMembers (events : List LabeledEvent) (cid : Int) : List LabeledEvent :=
  (events.filter (fun e => decide (e.cluster ≠ -1))).filter
    (fun e => decide (e.cluster = cid))

/-- First user result of a successful analysis. -/
def firstUserResult : AnalysisResult → Option UserResult
  | .report r => r.user_results.head?
  | .error _ => none

/-- First cluster prediction of the first user of a successful analysis. -/
def firstPrediction (res : AnalysisResult) : Option ClusterPrediction :=
  (firstUserResult res).bind (fun u => u.cluster_predictions.head?)

/-- The report's overall confidence (`summary['confidence']`). -/
def reportConfidence : AnalysisResult → Option ℚ
  | .report r => some r.confidence
  | .error _ => none

/-- Whether the analysis produced a report rather than an error value. -/
def isReport : AnalysisResult → Bool
  | .report _ => true
  | .error _ => false

/-- A chosen numeric field of the first user's weighted_events list. -/
def firstUserWeightedField (f : WeightedEvent → ℚ) (res : AnalysisResult) :
    Option (List ℚ) :=
  (firstUserResult res).map (fun u => u.weighted_events.map f)

/-- Confidence of the first location prediction of a successful analysis. -/
def firstLocationConfidence : AnalysisResult → Option ℚ
  | .report r => r.location_predictions.head?.map (fun kv => kv.2.confidence)
  | .error _ => none

/-- The cluster-membership view of a result: per user, the (timestamp,
cluster label) pairs of that user's events.  It exposes exactly the
cluster membership and none of the weight or centroid data. -/
def clusterView : AnalysisResult → Option (List (String × List (Int × Int)))
  | .error _ => none
  | .report r =>
      some (r.user_results.map (fun u =>
        (u.user_id, u.weighted_events.map (fun w => (w.timestamp, w.cluster)))))

/-! ### Concrete inputs used by the counterexamples and witnesses.
Epoch instant 86443200 is 12:00:00 UTC; the two-event batch places both
events within the DBSCAN eps radius (0.001° apart), one `upi` event at
the reference instant and one `app_open` event 24 hours earlier. -/

/-- Reference instant 12:00 UTC. -/
def now0 : Int := 86443200

/-- A second reference instant, 36 hours after `now0`. -/
def now1 : Int := 86572800

/-- Two nearby events of one user: upi at `now0`, app_open 24 h earlier. -/
def c12batch : List RawRecord :=
  [⟨"u1", some "upi", 86443200, 129 / 10, 155 / 2⟩,
   ⟨"u1", some "app_open", 86356800, 12901 / 1000, 155 / 2⟩]

/-- The coordinates of `c12batch`. -/
def c12pts : List (ℚ × ℚ) := [(129 / 10, 155 / 2), (12901 / 1000, 155 / 2)]

/-- `c12batch` with the DBSCAN labels the pipeline computes (both in
cluster 0). -/
def c12members : List LabeledEvent :=
  [⟨"u1", some "upi", 86443200, 129 / 10, 155 / 2, 0⟩,
   ⟨"u1", some "app_open", 86356800, 12901 / 1000, 155 / 2, 0⟩]

/-- The cluster prediction the code produces for `c12members` (and for
`c8members`, whose coordinates and event types are the same): centroid
weighted by the base weights 1.0 and 0.8 only. -/
def cP : ClusterPrediction := ⟨0, 14513 / 1125, 155 / 2, 2, 9 / 10⟩

/-- The same two positions and event types, both events 100 hours old at
`now0`, so both final weights are 0 (scenario C of the spec). -/
def c8batch : List RawRecord :=
  [⟨"u1", some "upi", 86083200, 129 / 10, 155 / 2⟩,
   ⟨"u1", some "app_open", 86083200, 12901 / 1000, 155 / 2⟩]

/-- `c8batch` with the pipeline's DBSCAN labels (both in cluster 0). -/
def c8members : List LabeledEvent :=
  [⟨"u1", some "upi", 86083200, 129 / 10, 155 / 2, 0⟩,
   ⟨"u1", some "app_open", 86083200, 12901 / 1000, 155 / 2, 0⟩]

/-- A single future-dated event: its timestamp is 72 hours after `now0`. -/
def cFutureBatch : List RawRecord :=
  [⟨"u1", some "upi", 86702400, 129 / 10, 155 / 2⟩]

/-- `cFutureBatch` with the pipeline's DBSCAN label (an isolated point is
noise). -/
def cFutureMembers : List LabeledEvent :=
  [⟨"u1", some "upi", 86702400, 129 / 10, 155 / 2, -1⟩]

/-- A single event at 18:00 UTC, which is 23:30 India Standard Time. -/
def c4batch : List RawRecord :=
  [⟨"u1", some "upi", 86464800, 129 / 10, 155 / 2⟩]

/-- A single isolated fresh event: DBSCAN labels it noise, so its user
takes the fallback path. -/
def c5batch : List RawRecord :=
  [⟨"u1", some "upi", 86443200, 129 / 10, 155 / 2⟩]

/-- `c5batch` with the pipeline's DBSCAN label (an isolated point is
noise). -/
def c5m : List LabeledEvent :=
  [⟨"u1", some "upi", 86443200, 129 / 10, 155 / 2, -1⟩]

/-- A record whose event_type key is missing.  Alone in a batch it
leaves the DataFrame without an event_type column, so the pipeline hits
the KeyError path. -/
def c10rec : RawRecord := ⟨"u1", none, 86443200, 129 / 10, 155 / 2⟩

/-- A mixed batch: one upi record and one record with no event_type key.
Because the first record carries the key, the DataFrame has the column
and the second record's cell is NaN (weight default 0.5).  The two
points are far apart, so both are DBSCAN noise. -/
def c10batch : List RawRecord :=
  [⟨"u1", some "upi", 86443200, 129 / 10, 155 / 2⟩,
   ⟨"u1", none, 86443200, 13, 78⟩]

/-- `c10batch` with the pipeline's DBSCAN labels (both isolated, noise). -/
def c10members : List LabeledEvent :=
  [⟨"u1", some "upi", 86443200, 129 / 10, 155 / 2, -1⟩,
   ⟨"u1", none, 86443200, 13, 78, -1⟩]

/-! ### Helper lemmas -/

theorem zipWith_mul_map (f g : LabeledEvent → ℚ) (l : List LabeledEvent) :
    List.zipWith (· * ·) (l.map f) (l.map g) = l.map (fun x => f x * g x) := by
  induction l with
  | nil => rfl
  | cons x xs ih => simp [ih]

theorem eventWeightsGet_ge (t : Option String) : 1 / 2 ≤ eventWeightsGet t := by
  unfold eventWeightsGet
  split <;> norm_num

theorem mem_clusterPredictions {events : List LabeledEvent} {now : Int}
    {p : ClusterPrediction}
    (hp : p ∈ (processUserData events now).cluster_predictions) :
    ∃ cid,
      cid ∈ uniques ((events.filter (fun e => decide (e.cluster ≠ -1))).map
        (fun e => e.cluster))
      ∧ clusterPredictionFor (events.filter (fun e => decide (e.cluster ≠ -1)))
          cid = some p := by
  have hcp : (processUserData events now).cluster_predictions
      = (if 0 < (events.filter (fun e => decide (e.cluster ≠ -1))).length then
          (uniques ((events.filter (fun e => decide (e.cluster ≠ -1))).map
            (fun e => e.cluster))).filterMap
            (clusterPredictionFor (events.filter (fun e => decide (e.cluster ≠ -1))))
        else []) := rfl
  rw [hcp] at hp
  split at hp
  · rcases List.mem_filterMap.mp hp with ⟨cid, hmem, h⟩
    exact ⟨cid, hmem, h⟩
  · exact absurd hp (List.not_mem_nil p)

theorem mem_uniquesAux {α : Type} [DecidableEq α] :
    ∀ (l seen : List α) (x : α), x ∈ uniquesAux seen l → x ∈ l := by
  intro l
  induction l with
  | nil => intro seen x h; cases h
  | cons c rest ih =>
      intro seen x h
      unfold uniquesAux at h
      by_cases hc : c ∈ seen
      · rw [if_pos hc] at h
        exact List.mem_cons_of_mem _ (ih _ _ h)
      · rw [if_neg hc] at h
        rcases List.mem_cons.mp h with h1 | h2
        · rw [h1]; exact List.mem_cons_self _ _
        · exact List.mem_cons_of_mem _ (ih _ _ h2)

theorem clusterPredictionFor_spec {clusters : List LabeledEvent} {cid : Int}
    {p : ClusterPrediction}
    (h : clusterPredictionFor clusters cid = some p) :
    clusters.filter (fun e => decide (e.cluster = cid)) ≠ []
    ∧ p.cluster_id = cid
    ∧ p.predicted_lat =
        ((clusters.filter (fun e => decide (e.cluster = cid))).map
          (fun e => eventWeightsGet e.event_type * e.lat)).sum /
        ((clusters.filter (fun e => decide (e.cluster = cid))).map
          (fun e => eventWeightsGet e.event_type)).sum
    ∧ p.predicted_lon =
        ((clusters.filter (fun e => decide (e.cluster = cid))).map
          (fun e => eventWeightsGet e.event_type * e.lon)).sum /
        ((clusters.filter (fun e => decide (e.cluster = cid))).map
          (fun e => eventWeightsGet e.event_type)).sum
    ∧ p.event_count = (clusters.filter (fun e => decide (e.cluster = cid))).length
    ∧ p.confidence =
        ((clusters.filter (fun e => decide (e.cluster = cid))).map
          (fun e => eventWeightsGet e.event_type)).sum /
        ((clusters.filter (fun e => decide (e.cluster = cid))).length : ℚ) := by
  unfold clusterPredictionFor at h
  by_cases he :
      ((clusters.filter (fun e => decide (e.cluster = cid))).map
        (fun e => eventWeightsGet e.event_type)).isEmpty
  · rw [if_pos he] at h
    exact Option.noConfusion h
  · rw [if_neg he] at h
    have hne : clusters.filter (fun e => decide (e.cluster = cid)) ≠ [] := by
      intro hnil
      rw [hnil] at he
      exact he rfl
    have hp := (Option.some.injEq _ _).mp h
    subst hp
    refine ⟨hne, rfl, ?_, ?_, rfl, ?_⟩
    · simp [zipWith_mul_map]
    · simp [zipWith_mul_map]
    · simp [List.length_map]

theorem filter_idem {α : Type} (p : α → Bool) (l : List α) :
    (l.filter p).filter p = l.filter p := by
  induction l with
  | nil => rfl
  | cons x xs ih => cases hx : p x <;> simp [List.filter_cons, hx, ih]

theorem map_cluster_filter (p : Int → Bool) (l : List LabeledEvent) :
    (l.filter (fun e => p e.cluster)).map (fun e => e.cluster)
      = (l.map (fun e => e.cluster)).filter p := by
  induction l with
  | nil => rfl
  | cons x xs ih => cases hx : p x.cluster <;> simp [List.filter_cons, hx, ih]

theorem uniquesAux_filter {α : Type} [DecidableEq α] (p : α → Bool) :
    ∀ (l seen seen' : List α),
      (∀ x, p x = true → (x ∈ seen ↔ x ∈ seen')) →
      uniquesAux seen (l.filter p) = (uniquesAux seen' l).filter p := by
  intro l
  induction l with
  | nil => intro seen seen' _; rfl
  | cons c rest ih =>
      intro seen seen' hss
      cases hc : p c with
      | false =>
          rw [show (c :: rest).filter p = rest.filter p by simp [List.filter_cons, hc]]
          by_cases hmem : c ∈ seen'
          · rw [show uniquesAux seen' (c :: rest) = uniquesAux seen' rest by
              simp [uniquesAux, hmem]]
            exact ih seen seen' hss
          · rw [show uniquesAux seen' (c :: rest)
                = c :: uniquesAux (c :: seen') rest by simp [uniquesAux, hmem]]
            rw [show (c :: uniquesAux (c :: seen') rest).filter p
                = (uniquesAux (c :: seen') rest).filter p by
              simp [List.filter_cons, hc]]
            refine ih seen (c :: seen') ?_
            intro x hx
            rw [hss x hx]
            constructor
            · intro hmx; exact List.mem_cons_of_mem _ hmx
            · intro hmx
              rcases List.mem_cons.mp hmx with hcx | hmx
              · rw [hcx] at hx; rw [hx] at hc; cases hc
              · exact hmx
      | true =>
          have hcc : c ∈ seen ↔ c ∈ seen' := hss c hc
          rw [show (c :: rest).filter p = c :: rest.filter p by
            simp [List.filter_cons, hc]]
          by_cases hmem : c ∈ seen'
          · rw [show uniquesAux seen (c :: rest.filter p)
                = uniquesAux seen (rest.filter p) by
              simp [uniquesAux, hcc.mpr hmem]]
            rw [show uniquesAux seen' (c :: rest) = uniquesAux seen' rest by
              simp [uniquesAux, hmem]]
            exact ih seen seen' hss
          · have hmem2 : c ∉ seen := fun hx => hmem (hcc.mp hx)
            rw [show uniquesAux seen (c :: rest.filter p)
                = c :: uniquesAux (c :: seen) (rest.filter p) by
              simp [uniquesAux, hmem2]]
            rw [show uniquesAux seen' (c :: rest)
                = c :: uniquesAux (c :: seen') rest by simp [uniquesAux, hmem]]
            rw [show (c :: uniquesAux (c :: seen') rest).filter p
                = c :: (uniquesAux (c :: seen') rest).filter p by
              simp [List.filter_cons, hc]]
            rw [ih (c :: seen) (c :: seen') ?_]
            intro x hx
            rcases hss x hx with hiff
            constructor
            · intro hmx
              rcases List.mem_cons.mp hmx with hcx | hmx
              · rw [hcx]; exact List.mem_cons_self c _
              · exact List.mem_cons_of_mem _ (hiff.mp hmx)
            · intro hmx
              rcases List.mem_cons.mp hmx with hcx | hmx
              · rw [hcx]; exact List.mem_cons_self c _
              · exact List.mem_cons_of_mem _ (hiff.mpr hmx)

theorem filterMap_filter_of_none {α β : Type} (g : α → Option β) (p : α → Bool)
    (hg : ∀ x, p x = false → g x = none) :
    ∀ l : List α, (l.filter p).filterMap g = l.filterMap g := by
  intro l
  induction l with
  | nil => rfl
  | cons x xs ih =>
      cases hx : p x with
      | true => simp [List.filter_cons, hx, List.filterMap_cons, ih]
      | false => simp [List.filter_cons, hx, List.filterMap_cons, hg x hx, ih]

theorem filter_ne_filter_eq (l : List LabeledEvent) {cid : Int} (h : cid ≠ -1) :
    (l.filter (fun e => decide (e.cluster ≠ -1))).filter
        (fun e => decide (e.cluster = cid))
      = l.filter (fun e => decide (e.cluster = cid)) := by
  induction l with
  | nil => rfl
  | cons x xs ih =>
      by_cases hx : x.cluster = cid
      · have hne : decide (x.cluster ≠ -1) = true := by
          rw [decide_eq_true_eq]; rw [hx]; exact h
        have heq : decide (x.cluster = cid) = true := by
          rw [decide_eq_true_eq]; exact hx
        rw [List.filter_cons, List.filter_cons, hne, heq, if_pos rfl, if_pos rfl,
          List.filter_cons, heq, if_pos rfl, ih]
      · have heq : decide (x.cluster = cid) = false := by
          rw [decide_eq_false_iff_not]; exact hx
        by_cases hn : x.cluster ≠ -1
        · have hne : decide (x.cluster ≠ -1) = true := by
            rw [decide_eq_true_eq]; exact hn
          rw [List.filter_cons, List.filter_cons, hne, heq, if_pos rfl,
            if_neg (by simp), List.filter_cons, heq, if_neg (by simp), ih]
        · have hne : decide (x.cluster ≠ -1) = false := by
            rw [decide_eq_false_iff_not]; exact hn
          rw [List.filter_cons, List.filter_cons, hne, heq,
            if_neg (by simp), if_neg (by simp), ih]

theorem processUserData_weighted (l : List LabeledEvent) (now : Int) :
    (processUserData l now).weighted_events = l.map (mkWeightedEvent now) := rfl

theorem processUserData_predictions (l : List LabeledEvent) (now : Int) :
    (processUserData l now).cluster_predictions
      = (if 0 < (l.filter (fun e => decide (e.cluster ≠ -1))).length then
          (uniques ((l.filter (fun e => decide (e.cluster ≠ -1))).map
            (fun e => e.cluster))).filterMap
            (clusterPredictionFor (l.filter (fun e => decide (e.cluster ≠ -1))))
        else []) := rfl

theorem mem_weightedEvents {events : List LabeledEvent} {now : Int}
    {w : WeightedEvent}
    (hw : w ∈ (processUserData events now).weighted_events) :
    ∃ e, e ∈ events ∧ w = mkWeightedEvent now e := by
  rw [processUserData_weighted] at hw
  rcases List.mem_map.mp hw with ⟨e, he, heq⟩
  exact ⟨e, he, heq.symm⟩

/-! ### Evaluation lemmas for the concrete inputs -/

theorem ewUpi : eventWeightsGet (some "upi") = 1 := rfl

theorem ewApp : eventWeightsGet (some "app_open") = 4 / 5 := rfl

theorem ewNone : eventWeightsGet none = 1 / 2 := rfl

theorem nbA : nightBoost 86443200 = 1 := rfl

theorem nbB : nightBoost 86356800 = 1 := rfl

theorem nbC : nightBoost 86083200 = 1 := rfl

theorem nbF : nightBoost 86702400 = 1 := rfl

theorem nbD : nightBoost 86464800 = 1 := rfl

theorem istHourD : istHour 86464800 = 23 := rfl

theorem tdA0 : timeDecay now0 86443200 = 1 := by
  norm_num [timeDecay, timeDiffHours, now0, max_def]

theorem tdB0 : timeDecay now0 86356800 = 2 / 3 := by
  norm_num [timeDecay, timeDiffHours, now0, max_def]

theorem tdA1 : timeDecay now1 86443200 = 1 / 2 := by
  norm_num [timeDecay, timeDiffHours, now1, max_def]

theorem tdB1 : timeDecay now1 86356800 = 1 / 6 := by
  norm_num [timeDecay, timeDiffHours, now1, max_def]

theorem tdC0 : timeDecay now0 86083200 = 0 := by
  norm_num [timeDecay, timeDiffHours, now0, max_def]

theorem tdF0 : timeDecay now0 86702400 = 2 := by
  norm_num [timeDecay, timeDiffHours, now0, max_def]

theorem tdD : timeDecay 86464800 86464800 = 1 := by
  norm_num [timeDecay, timeDiffHours, max_def]

theorem c12pts_labels : dbscanFitPredict c12pts = [0, 0] := by
  norm_num [dbscanFitPredict, c12pts, dbscanStep, dbscanExpand, neighborIdxs,
    sqDist, List.range_succ, List.filter]
  rfl

theorem singlePt_labels : dbscanFitPredict [((129 : ℚ) / 10, 155 / 2)] = [-1] := by
  norm_num [dbscanFitPredict, dbscanStep, dbscanExpand, neighborIdxs,
    sqDist, List.range_succ, List.filter]

theorem farPts_labels :
    dbscanFitPredict [((129 : ℚ) / 10, 155 / 2), (13, 78)] = [-1, -1] := by
  norm_num [dbscanFitPredict, dbscanStep, dbscanExpand, neighborIdxs,
    sqDist, List.range_succ, List.filter]
  rfl

theorem c12_firstUser (now : Int) :
    firstUserResult (processKalmanClusterFusion c12batch now)
      = some (processUserData c12members now) := by
  unfold processKalmanClusterFusion
  rw [if_neg (by decide), if_neg (by decide)]
  rw [show c12batch.map (fun r => (r.lat, r.lon)) = c12pts from rfl, c12pts_labels]
  rfl

theorem c8_firstUser (now : Int) :
    firstUserResult (processKalmanClusterFusion c8batch now)
      = some (processUserData c8members now) := by
  unfold processKalmanClusterFusion
  rw [if_neg (by decide), if_neg (by decide)]
  rw [show c8batch.map (fun r => (r.lat, r.lon)) = c12pts from rfl, c12pts_labels]
  rfl

theorem cFuture_firstUser (now : Int) :
    firstUserResult (processKalmanClusterFusion cFutureBatch now)
      = some (processUserData cFutureMembers now) := by
  unfold processKalmanClusterFusion
  rw [if_neg (by decide), if_neg (by decide)]
  rw [show cFutureBatch.map (fun r => (r.lat, r.lon))
      = [((129 : ℚ) / 10, 155 / 2)] from rfl, singlePt_labels]
  rfl

theorem c4_firstUser (now : Int) :
    firstUserResult (processKalmanClusterFusion c4batch now)
      = some (processUserData
          [⟨"u1", some "upi", 86464800, 129 / 10, 155 / 2, -1⟩] now) := by
  unfold processKalmanClusterFusion
  rw [if_neg (by decide), if_neg (by decide)]
  rw [show c4batch.map (fun r => (r.lat, r.lon))
      = [((129 : ℚ) / 10, 155 / 2)] from rfl, singlePt_labels]
  rfl

theorem c10_firstUser (now : Int) :
    firstUserResult (processKalmanClusterFusion c10batch now)
      = some (processUserData c10members now) := by
  unfold processKalmanClusterFusion
  rw [if_neg (by decide), if_neg (by decide)]
  rw [show c10batch.map (fun r => (r.lat, r.lon))
      = [((129 : ℚ) / 10, 155 / 2), (13, 78)] from rfl, farPts_labels]
  rfl

theorem processUserData_primary (l : List LabeledEvent) (now : Int) :
    (processUserData l now).primary_prediction
      = pyMaxByConfidence ((processUserData l now).cluster_predictions) := rfl

theorem processUserData_userId (l : List LabeledEvent) (now : Int) :
    (processUserData l now).user_id
      = (l.headD ⟨"", none, 0, 0, 0, 0⟩).user_id := rfl

theorem c12_clusterPrediction : clusterPredictionFor c12members 0 = some cP := by
  unfold clusterPredictionFor
  rw [show c12members.filter (fun e => decide (e.cluster = 0)) = c12members from rfl]
  simp only [c12members, List.map_cons, List.map_nil, ewUpi, ewApp]
  rw [if_neg (by decide)]
  simp only [cP, Option.some.injEq, ClusterPrediction.mk.injEq, List.zipWith,
    List.sum_cons, List.sum_nil, List.length_cons, List.length_nil]
  norm_num

theorem c8_clusterPrediction : clusterPredictionFor c8members 0 = some cP := by
  unfold clusterPredictionFor
  rw [show c8members.filter (fun e => decide (e.cluster = 0)) = c8members from rfl]
  simp only [c8members, List.map_cons, List.map_nil, ewUpi, ewApp]
  rw [if_neg (by decide)]
  simp only [cP, Option.some.injEq, ClusterPrediction.mk.injEq, List.zipWith,
    List.sum_cons, List.sum_nil, List.length_cons, List.length_nil]
  norm_num

theorem c12_predictions (now : Int) :
    (processUserData c12members now).cluster_predictions = [cP] := by
  rw [processUserData_predictions]
  rw [if_pos (by decide)]
  rw [show c12members.filter (fun e => decide (e.cluster ≠ -1)) = c12members from rfl]
  rw [show uniques (c12members.map (fun e => e.cluster)) = [0] from rfl]
  simp only [List.filterMap_cons, List.filterMap_nil, c12_clusterPrediction]

theorem c8_predictions (now : Int) :
    (processUserData c8members now).cluster_predictions = [cP] := by
  rw [processUserData_predictions]
  rw [if_pos (by decide)]
  rw [show c8members.filter (fun e => decide (e.cluster ≠ -1)) = c8members from rfl]
  rw [show uniques (c8members.map (fun e => e.cluster)) = [0] from rfl]
  simp only [List.filterMap_cons, List.filterMap_nil, c8_clusterPrediction]

theorem c12_weighted0 :
    (processUserData c12members now0).weighted_events
      = [⟨some "upi", 86443200, 129 / 10, 155 / 2, 0, 1, 1, 1, 1⟩,
         ⟨some "app_open", 86356800, 12901 / 1000, 155 / 2, 0, 4 / 5, 2 / 3, 1,
           8 / 15⟩] := by
  rw [processUserData_weighted]
  simp only [c12members, List.map_cons, List.map_nil, mkWeightedEvent, finalWeight,
    ewUpi, ewApp, tdA0, tdB0, nbA, nbB, List.cons.injEq, WeightedEvent.mk.injEq]
  norm_num

theorem c12_weighted1 :
    (processUserData c12members now1).weighted_events
      = [⟨some "upi", 86443200, 129 / 10, 155 / 2, 0, 1, 1 / 2, 1, 1 / 2⟩,
         ⟨some "app_open", 86356800, 12901 / 1000, 155 / 2, 0, 4 / 5, 1 / 6, 1,
           2 / 15⟩] := by
  rw [processUserData_weighted]
  simp only [c12members, List.map_cons, List.map_nil, mkWeightedEvent, finalWeight,
    ewUpi, ewApp, tdA1, tdB1, nbA, nbB, List.cons.injEq, WeightedEvent.mk.injEq]
  norm_num

theorem c8_weighted0 :
    (processUserData c8members now0).weighted_events
      = [⟨some "upi", 86083200, 129 / 10, 155 / 2, 0, 1, 0, 1, 0⟩,
         ⟨some "app_open", 86083200, 12901 / 1000, 155 / 2, 0, 4 / 5, 0, 1, 0⟩] := by
  rw [processUserData_weighted]
  simp only [c8members, List.map_cons, List.map_nil, mkWeightedEvent, finalWeight,
    ewUpi, ewApp, tdC0, nbC, List.cons.injEq, WeightedEvent.mk.injEq]
  norm_num

theorem cFuture_weighted0 :
    (processUserData cFutureMembers now0).weighted_events
      = [⟨some "upi", 86702400, 129 / 10, 155 / 2, -1, 1, 2, 1, 2⟩] := by
  rw [processUserData_weighted]
  simp only [cFutureMembers, List.map_cons, List.map_nil, mkWeightedEvent,
    finalWeight, ewUpi, tdF0, nbF, List.cons.injEq, WeightedEvent.mk.injEq]
  norm_num

theorem c4_weighted :
    (processUserData [⟨"u1", some "upi", 86464800, 129 / 10, 155 / 2, -1⟩]
        86464800).weighted_events
      = [⟨some "upi", 86464800, 129 / 10, 155 / 2, -1, 1, 1, 1, 1⟩] := by
  rw [processUserData_weighted]
  simp only [List.map_cons, List.map_nil, mkWeightedEvent, finalWeight,
    ewUpi, tdD, nbD, List.cons.injEq, WeightedEvent.mk.injEq]
  norm_num

theorem c10_weighted :
    (processUserData c10members now0).weighted_events
      = [⟨some "upi", 86443200, 129 / 10, 155 / 2, -1, 1, 1, 1, 1⟩,
         ⟨none, 86443200, 13, 78, -1, 1 / 2, 1, 1, 1 / 2⟩] := by
  rw [processUserData_weighted]
  simp only [c10members, List.map_cons, List.map_nil, mkWeightedEvent,
    finalWeight, ewUpi, ewNone, tdA0, nbA, List.cons.injEq,
    WeightedEvent.mk.injEq]
  norm_num

theorem cFuture_predictions (now : Int) :
    (processUserData cFutureMembers now).cluster_predictions = [] := by
  rw [processUserData_predictions]
  rw [if_neg (by decide)]

theorem c5_predictions (now : Int) :
    (processUserData c5m now).cluster_predictions = [] := by
  rw [processUserData_predictions]
  rw [if_neg (by decide)]

theorem c5_primary (now : Int) :
    (processUserData c5m now).primary_prediction = none := by
  rw [processUserData_primary, c5_predictions]
  rfl

theorem c5_run :
    processKalmanClusterFusion c5batch now0
      = .report
          { confidence := calculateOverallConfidence [processUserData c5m now0]
            user_results := [processUserData c5m now0]
            cluster_info := getClusterInfo c5m
            location_predictions :=
              generateLocationPredictions c5m [processUserData c5m now0] } := by
  unfold processKalmanClusterFusion
  rw [if_neg (by decide), if_neg (by decide)]
  rw [show c5batch.map (fun r => (r.lat, r.lon))
      = [((129 : ℚ) / 10, 155 / 2)] from rfl, singlePt_labels]
  rfl

theorem c5_conf : calculateOverallConfidence [processUserData c5m now0] = 0 := by
  unfold calculateOverallConfidence
  rw [if_neg (by decide)]
  simp only [List.map_cons, List.map_nil, c5_primary]
  norm_num [listMean]

theorem c5_loc :
    generateLocationPredictions c5m [processUserData c5m now0]
      = [("u1", ⟨129 / 10, 155 / 2, 3 / 10, none, 1, "simple_average"⟩)] := by
  unfold generateLocationPredictions
  simp only [List.filterMap_cons, List.filterMap_nil, c5_primary]
  rw [show (processUserData c5m now0).user_id = "u1" from rfl]
  rw [show c5m.filter (fun e => decide (e.user_id = "u1")) = c5m from rfl]
  rw [if_pos (by decide)]
  simp only [c5m, List.map_cons, List.map_nil, Prod.mk.injEq,
    LocationPrediction.mk.injEq, List.cons.injEq]
  norm_num [listMean]

theorem uniques_filter {α : Type} [DecidableEq α] (p : α → Bool) (l : List α) :
    uniques (l.filter p) = (uniques l).filter p :=
  uniquesAux_filter p l [] [] (fun _ _ => Iff.rfl)

theorem uniques_cons_ne_nil {α : Type} [DecidableEq α] (x : α) (l : List α) :
    uniques (x :: l) ≠ [] := by
  unfold uniques uniquesAux
  simp

theorem calcConf_ne_nil (urs : List UserResult) (h : urs ≠ []) :
    calculateOverallConfidence urs
      = listMean (urs.map (fun r =>
          match r.primary_prediction with
          | some p => p.confidence
          | none => 0)) := by
  cases urs with
  | nil => exact absurd rfl h
  | cons u us => rfl

theorem weightedView (l : List LabeledEvent) (now : Int) :
    (l.map (mkWeightedEvent now)).map (fun w => (w.timestamp, w.cluster))
      = l.map (fun e => (e.timestamp, e.cluster)) := by
  rw [List.map_map]
  rfl

/-! ### Claims -/

/-- C1 counterexample: on the two-event batch `c12batch` (one fresh upi
event, one 24-hour-old app_open event, both in cluster 0) the pipeline's
predicted latitude is 14513/1125 — the average weighted by the base
weights 1.0 and 0.8 — while the weighted average using each member's
final_weight (1 and 8/15, the 24-hour time decay included) is 74177/5750.
The two differ, so predicted_lat is not the final_weight-weighted
average the claim states. -/
theorem c1_counterexample :
    (firstPrediction (processKalmanClusterFusion c12batch now0)).map
        (fun p => p.predicted_lat) = some (14513 / 1125)
    ∧ specFinalWeightAvgLat c12members now0 = 74177 / 5750
    ∧ (14513 / 1125 : ℚ) ≠ 74177 / 5750 := by
  refine ⟨?_, ?_, by norm_num⟩
  · rw [firstPrediction, c12_firstUser now0]
    show ((processUserData c12members now0).cluster_predictions.head?).map
        (fun p => p.predicted_lat) = some (14513 / 1125)
    rw [c12_predictions now0]
    rfl
  · norm_num [specFinalWeightAvgLat, c12members, finalWeight, ewUpi, ewApp,
      tdA0, tdB0, nbA, nbB, List.map_cons, List.map_nil]

/-- C1 (amended): the predicted centroid of every ClusterPrediction is
the weighted average of the member events' lat/lon using each member's
event-type base weight (`event_weights.get(event_type, 0.5)`) as its
weight — time decay and night boost are not applied to the centroid
weights (utils.py line 168). -/
theorem c1_theorem (events : List LabeledEvent) (now : Int)
    (p : ClusterPrediction)
    (hp : p ∈ (processUserData events now).cluster_predictions) :
    p.predicted_lat =
      ((clusterMembers events p.cluster_id).map
        (fun e => eventWeightsGet e.event_type * e.lat)).sum /
      ((clusterMembers events p.cluster_id).map
        (fun e => eventWeightsGet e.event_type)).sum
    ∧ p.predicted_lon =
      ((clusterMembers events p.cluster_id).map
        (fun e => eventWeightsGet e.event_type * e.lon)).sum /
      ((clusterMembers events p.cluster_id).map
        (fun e => eventWeightsGet e.event_type)).sum := by
  rcases mem_clusterPredictions hp with ⟨cid, _, hcid⟩
  rcases clusterPredictionFor_spec hcid with ⟨_, hid, hlat, hlon, _, _⟩
  subst hid
  simp only [clusterMembers]
  exact ⟨hlat, hlon⟩

/-- C1 witness: the amended claim evaluated on the concrete two-event
cluster `c12members`. -/
theorem c1_witness :
    cP.predicted_lat =
      ((clusterMembers c12members cP.cluster_id).map
        (fun e => eventWeightsGet e.event_type * e.lat)).sum /
      ((clusterMembers c12members cP.cluster_id).map
        (fun e => eventWeightsGet e.event_type)).sum
    ∧ cP.predicted_lon =
      ((clusterMembers c12members cP.cluster_id).map
        (fun e => eventWeightsGet e.event_type * e.lon)).sum /
      ((clusterMembers c12members cP.cluster_id).map
        (fun e => eventWeightsGet e.event_type)).sum :=
  c1_theorem c12members now0 cP
    (by rw [c12_predictions now0]; exact List.mem_singleton.mpr rfl)

/-- C2 counterexample: on `c12batch` the pipeline's cluster confidence is
9/10 — the mean of the base weights 1.0 and 0.8 — while the mean of the
member events' final_weight values (1 and 8/15) is 23/30.  The two
differ, so confidence is not the mean of final_weight the claim states. -/
theorem c2_counterexample :
    (firstPrediction (processKalmanClusterFusion c12batch now0)).map
        (fun p => p.confidence) = some (9 / 10)
    ∧ specFinalWeightMean c12members now0 = 23 / 30
    ∧ (9 / 10 : ℚ) ≠ 23 / 30 := by
  refine ⟨?_, ?_, by norm_num⟩
  · rw [firstPrediction, c12_firstUser now0]
    show ((processUserData c12members now0).cluster_predictions.head?).map
        (fun p => p.confidence) = some (9 / 10)
    rw [c12_predictions now0]
    rfl
  · norm_num [specFinalWeightMean, listMean, c12members, finalWeight, ewUpi,
      ewApp, tdA0, tdB0, nbA, nbB, List.map_cons, List.map_nil]

/-- C2 (amended): the confidence of every ClusterPrediction is the plain
arithmetic mean of the member events' event-type base weights
(`np.mean(weights)` over `event_weights.get(...)` values, utils.py lines
168 and 179) — not of their final_weight values. -/
theorem c2_theorem (events : List LabeledEvent) (now : Int)
    (p : ClusterPrediction)
    (hp : p ∈ (processUserData events now).cluster_predictions) :
    p.confidence =
      ((clusterMembers events p.cluster_id).map
        (fun e => eventWeightsGet e.event_type)).sum /
      ((clusterMembers events p.cluster_id).length : ℚ) := by
  rcases mem_clusterPredictions hp with ⟨cid, _, hcid⟩
  rcases clusterPredictionFor_spec hcid with ⟨_, hid, _, _, _, hconf⟩
  subst hid
  simp only [clusterMembers]
  exact hconf

/-- C2 witness: the amended claim evaluated on the concrete two-event
cluster `c12members`. -/
theorem c2_witness :
    cP.confidence =
      ((clusterMembers c12members cP.cluster_id).map
        (fun e => eventWeightsGet e.event_type)).sum /
      ((clusterMembers c12members cP.cluster_id).length : ℚ) :=
  c2_theorem c12members now0 cP
    (by rw [c12_predictions now0]; exact List.mem_singleton.mpr rfl)

/-- C3 counterexample: for a future-dated event (timestamp 72 hours
after the reference instant) the pipeline's time_decay is 2, not 1:
`max(0, 1 - diff/72)` has no upper clamp, so the claim's "clamped to
[0,1]" and "for negative elapsed time it clamps to exactly 1" are false
on the code. -/
theorem c3_counterexample :
    firstUserWeightedField (fun w => w.time_decay)
        (processKalmanClusterFusion cFutureBatch now0) = some [2]
    ∧ ¬ ((2 : ℚ) ≤ 1) := by
  refine ⟨?_, by norm_num⟩
  rw [firstUserWeightedField, cFuture_firstUser now0]
  show some ((processUserData cFutureMembers now0).weighted_events.map
      (fun w => w.time_decay)) = some [2]
  rw [cFuture_weighted0]
  rfl

/-- C3 (amended): every weighted event's time_decay equals
`max(0, 1 - hours_elapsed/72)`: it is 1 at 0 elapsed hours, 0 at and
beyond 72 hours, monotonically non-increasing in elapsed hours and never
negative; but it is clamped only from below — for negative elapsed time
(a future-dated event) it exceeds 1 instead of clamping to 1. -/
theorem c3_theorem (events : List LabeledEvent) (now : Int)
    (w : WeightedEvent)
    (hw : w ∈ (processUserData events now).weighted_events) :
    w.time_decay = max 0 (1 - timeDiffHours now w.timestamp / 72)
    ∧ (timeDiffHours now w.timestamp = 0 → w.time_decay = 1)
    ∧ (72 ≤ timeDiffHours now w.timestamp → w.time_decay = 0)
    ∧ 0 ≤ w.time_decay
    ∧ (timeDiffHours now w.timestamp < 0 → 1 < w.time_decay)
    ∧ (∀ ts1 ts2 : Int, ts1 ≤ ts2 → timeDecay now ts1 ≤ timeDecay now ts2) := by
  rcases mem_weightedEvents hw with ⟨e, _, hwe⟩
  subst hwe
  simp only [mkWeightedEvent]
  refine ⟨rfl, ?_, ?_, le_max_left 0 _, ?_, ?_⟩
  · intro h
    rw [timeDecay, h]
    norm_num [max_def]
  · intro h
    rw [timeDecay, max_eq_left]
    have h72 : (1 : ℚ) ≤ timeDiffHours now e.timestamp / 72 := by
      rw [le_div_iff (by norm_num : (0 : ℚ) < 72)]
      linarith
    linarith
  · intro h
    have hneg : timeDiffHours now e.timestamp / 72 < 0 :=
      div_neg_of_neg_of_pos h (by norm_num)
    rw [timeDecay]
    exact lt_max_iff.mpr (Or.inr (by linarith))
  · intro ts1 ts2 h
    unfold timeDecay timeDiffHours
    have hle : ((now - ts2 : Int) : ℚ) ≤ ((now - ts1 : Int) : ℚ) := by
      exact_mod_cast Int.sub_le_sub_left h now
    refine max_le_max le_rfl ?_
    have h2 : ((now - ts2 : Int) : ℚ) / 3600 ≤ ((now - ts1 : Int) : ℚ) / 3600 :=
      (div_le_div_right (by norm_num)).mpr hle
    have h3 : ((now - ts2 : Int) : ℚ) / 3600 / 72
        ≤ ((now - ts1 : Int) : ℚ) / 3600 / 72 :=
      (div_le_div_right (by norm_num)).mpr h2
    linarith

/-- C3 witness: the amended claim evaluated on the concrete future-dated
event, whose computed time_decay is 2. -/
theorem c3_witness :
    (⟨some "upi", 86702400, 129 / 10, 155 / 2, -1, 1, 2, 1, 2⟩
        : WeightedEvent).time_decay
      = max 0 (1 - timeDiffHours now0
          (⟨some "upi", 86702400, 129 / 10, 155 / 2, -1, 1, 2, 1, 2⟩
            : WeightedEvent).timestamp / 72)
    ∧ (timeDiffHours now0 86702400 = 0
        → (⟨some "upi", 86702400, 129 / 10, 155 / 2, -1, 1, 2, 1, 2⟩
            : WeightedEvent).time_decay = 1)
    ∧ (72 ≤ timeDiffHours now0 86702400
        → (⟨some "upi", 86702400, 129 / 10, 155 / 2, -1, 1, 2, 1, 2⟩
            : WeightedEvent).time_decay = 0)
    ∧ 0 ≤ (⟨some "upi", 86702400, 129 / 10, 155 / 2, -1, 1, 2, 1, 2⟩
            : WeightedEvent).time_decay
    ∧ (timeDiffHours now0 86702400 < 0
        → 1 < (⟨some "upi", 86702400, 129 / 10, 155 / 2, -1, 1, 2, 1, 2⟩
            : WeightedEvent).time_decay)
    ∧ (∀ ts1 ts2 : Int, ts1 ≤ ts2 → timeDecay now0 ts1 ≤ timeDecay now0 ts2) :=
  c3_theorem cFutureMembers now0 _
    (by rw [cFuture_weighted0]; exact List.mem_singleton.mpr rfl)

/-- C4 counterexample: the event of `c4batch` occurs at 18:00 UTC, which
is 23:30 India Standard Time — inside the claim's IST night window
[22,23] ∪ [0,6] — yet the pipeline's night_boost is 1.0, because the
code uses the timestamp's own (UTC) hour without converting to IST
(utils.py line 142). -/
theorem c4_counterexample :
    firstUserWeightedField (fun w => w.night_boost)
        (processKalmanClusterFusion c4batch 86464800) = some [1]
    ∧ (22 ≤ istHour 86464800 ∨ istHour 86464800 ≤ 6)
    ∧ ((1 : ℚ) ≠ 6 / 5) := by
  refine ⟨?_, by rw [istHourD]; left; norm_num, by norm_num⟩
  rw [firstUserWeightedField, c4_firstUser 86464800]
  show some ((processUserData
      [⟨"u1", some "upi", 86464800, 129 / 10, 155 / 2, -1⟩]
      86464800).weighted_events.map (fun w => w.night_boost)) = some [1]
  rw [c4_weighted]
  rfl

/-- C4 (amended): every weighted event's night_boost is 1.2 exactly when
the hour of the event's own (UTC) timestamp lies in [22,23] ∪ [0,6], and
1.0 otherwise — the code applies no India-Standard-Time conversion in
the weight path. -/
theorem c4_theorem (events : List LabeledEvent) (now : Int)
    (w : WeightedEvent)
    (hw : w ∈ (processUserData events now).weighted_events) :
    w.night_boost =
      (if 22 ≤ eventHour w.timestamp ∨ eventHour w.timestamp ≤ 6
        then 6 / 5 else 1)
    ∧ (w.night_boost = 6 / 5 ∨ w.night_boost = 1) := by
  rcases mem_weightedEvents hw with ⟨e, _, hwe⟩
  subst hwe
  simp only [mkWeightedEvent]
  constructor
  · rfl
  · unfold nightBoost
    split
    · exact Or.inl rfl
    · exact Or.inr rfl

/-- C4 witness: the amended claim evaluated on the 18:00 UTC event,
whose computed night_boost is 1.0. -/
theorem c4_witness :
    (⟨some "upi", 86464800, 129 / 10, 155 / 2, -1, 1, 1, 1, 1⟩
        : WeightedEvent).night_boost =
      (if 22 ≤ eventHour (⟨some "upi", 86464800, 129 / 10, 155 / 2, -1, 1, 1,
            1, 1⟩ : WeightedEvent).timestamp
          ∨ eventHour (⟨some "upi", 86464800, 129 / 10, 155 / 2, -1, 1, 1, 1,
            1⟩ : WeightedEvent).timestamp ≤ 6
        then 6 / 5 else 1)
    ∧ ((⟨some "upi", 86464800, 129 / 10, 155 / 2, -1, 1, 1, 1, 1⟩
        : WeightedEvent).night_boost = 6 / 5
      ∨ (⟨some "upi", 86464800, 129 / 10, 155 / 2, -1, 1, 1, 1, 1⟩
        : WeightedEvent).night_boost = 1) :=
  c4_theorem [⟨"u1", some "upi", 86464800, 129 / 10, 155 / 2, -1⟩] 86464800 _
    (by rw [c4_weighted]; exact List.mem_singleton.mpr rfl)

theorem bool_eq_false {b : Bool} (h : ¬ b = true) : b = false := by
  cases b
  · rfl
  · exact absurd rfl h

theorem run_eq (records : List RawRecord) (now : Int) (h : records ≠ [])
    (hcol : records.all (fun r => r.event_type.isNone) = false) :
    processKalmanClusterFusion records now
      = .report
          { confidence := calculateOverallConfidence (userResultsOf records now)
            user_results := userResultsOf records now
            cluster_info := getClusterInfo (dfOf records)
            location_predictions :=
              generateLocationPredictions (dfOf records)
                (userResultsOf records now) } := by
  cases records with
  | nil => exact absurd rfl h
  | cons rr rest =>
      unfold processKalmanClusterFusion
      rw [if_neg (by simp), if_neg (by rw [hcol]; simp)]
      rfl

theorem allNone_run (records : List RawRecord) (now : Int) (h : records ≠ [])
    (hall : records.all (fun r => r.event_type.isNone) = true) :
    processKalmanClusterFusion records now
      = .error "Processing failed: 'event_type'" := by
  cases records with
  | nil => exact absurd rfl h
  | cons rr rest =>
      unfold processKalmanClusterFusion
      rw [if_neg (by simp), if_pos hall]

theorem userResultsOf_ne_nil (records : List RawRecord) (now : Int)
    (h : records ≠ []) : userResultsOf records now ≠ [] := by
  cases records with
  | nil => exact absurd rfl h
  | cons rr rest =>
      unfold userResultsOf dfOf
      intro habs
      rw [show labelEvents (rr :: rest)
            (dbscanFitPredict ((rr :: rest).map (fun r => (r.lat, r.lon))))
          = ⟨rr.user_id, rr.event_type, rr.timestamp, rr.lat, rr.lon,
              (dbscanFitPredict
                ((rr :: rest).map (fun r => (r.lat, r.lon)))).headD (-1)⟩
            :: labelEvents rest
                (dbscanFitPredict
                  ((rr :: rest).map (fun r => (r.lat, r.lon)))).tail
          from rfl] at habs
      rw [List.map_cons] at habs
      exact uniques_cons_ne_nil _ _ (List.map_eq_nil.mp habs)

/-- C5 counterexample: on a batch with one isolated (noise) event, the
user takes the fallback path; the report's overall confidence is 0 while
the fallback location prediction carries the fixed confidence 0.3:
`calculate_overall_confidence` appends 0.0, not 0.3, for a user whose
primary_prediction is None (utils.py line 284), so the claim's stated
mean (which would be 0.3 here) is wrong. -/
theorem c5_counterexample :
    reportConfidence (processKalmanClusterFusion c5batch now0) = some 0
    ∧ firstLocationConfidence (processKalmanClusterFusion c5batch now0)
        = some (3 / 10)
    ∧ (0 : ℚ) ≠ 3 / 10 := by
  refine ⟨?_, ?_, by norm_num⟩
  · rw [c5_run]
    show some (calculateOverallConfidence [processUserData c5m now0]) = some 0
    rw [c5_conf]
  · rw [c5_run]
    show (generateLocationPredictions c5m
        [processUserData c5m now0]).head?.map (fun kv => kv.2.confidence)
      = some (3 / 10)
    rw [c5_loc]
    rfl

/-- C5 (amended): the report's overall confidence is the arithmetic mean
over all user results of the primary prediction's confidence, where a
user whose primary_prediction is None (the no-cluster fallback path)
contributes 0.0 — not the fallback prediction's fixed 0.3, which appears
only in location_predictions; for zero users the overall confidence is
0.0. -/
theorem c5_theorem (records : List RawRecord) (now : Int) (r : Report)
    (h : processKalmanClusterFusion records now = .report r) :
    r.confidence
      = listMean (r.user_results.map (fun u =>
          match u.primary_prediction with
          | some p => p.confidence
          | none => 0))
    ∧ r.user_results ≠ []
    ∧ calculateOverallConfidence [] = 0 := by
  have hne : records ≠ [] := by
    intro hnil
    subst hnil
    rw [show processKalmanClusterFusion [] now = .error "No data to process"
      from rfl] at h
    exact AnalysisResult.noConfusion h
  by_cases hall : records.all (fun r => r.event_type.isNone) = true
  · rw [allNone_run records now hne hall] at h
    exact AnalysisResult.noConfusion h
  · rw [run_eq records now hne (bool_eq_false hall)] at h
    have hr := (AnalysisResult.report.injEq _ _).mp h
    subst hr
    exact ⟨calcConf_ne_nil _ (userResultsOf_ne_nil records now hne),
      userResultsOf_ne_nil records now hne, rfl⟩

/-- C5 witness: the amended claim evaluated on the concrete one-user
fallback batch `c5batch`. -/
theorem c5_witness :
    (Report.mk (calculateOverallConfidence (userResultsOf c5batch now0))
        (userResultsOf c5batch now0) (getClusterInfo (dfOf c5batch))
        (generateLocationPredictions (dfOf c5batch)
          (userResultsOf c5batch now0))).confidence
      = listMean ((Report.mk
          (calculateOverallConfidence (userResultsOf c5batch now0))
          (userResultsOf c5batch now0) (getClusterInfo (dfOf c5batch))
          (generateLocationPredictions (dfOf c5batch)
            (userResultsOf c5batch now0))).user_results.map (fun u =>
          match u.primary_prediction with
          | some p => p.confidence
          | none => 0))
    ∧ (Report.mk (calculateOverallConfidence (userResultsOf c5batch now0))
        (userResultsOf c5batch now0) (getClusterInfo (dfOf c5batch))
        (generateLocationPredictions (dfOf c5batch)
          (userResultsOf c5batch now0))).user_results ≠ []
    ∧ calculateOverallConfidence [] = 0 :=
  c5_theorem c5batch now0 _
    (run_eq c5batch now0 (by simp [c5batch]) (by decide))

/-- C6 counterexample: the engine's per-event weights depend on the
wall-clock instant (`timezone.now()`, utils.py line 127), not only on
the supplied batch: running the same batch `c12batch` at two different
instants yields different final weights, so the weights are not a
function of the supplied inputs alone and the engine does read a clock. -/
theorem c6_counterexample :
    firstUserWeightedField (fun w => w.final_weight)
        (processKalmanClusterFusion c12batch now0) = some [1, 8 / 15]
    ∧ firstUserWeightedField (fun w => w.final_weight)
        (processKalmanClusterFusion c12batch now1) = some [1 / 2, 2 / 15]
    ∧ ([1, 8 / 15] : List ℚ) ≠ [1 / 2, 2 / 15] := by
  refine ⟨?_, ?_, by norm_num⟩
  · rw [firstUserWeightedField, c12_firstUser now0]
    show some ((processUserData c12members now0).weighted_events.map
        (fun w => w.final_weight)) = some [1, 8 / 15]
    rw [c12_weighted0]
    rfl
  · rw [firstUserWeightedField, c12_firstUser now1]
    show some ((processUserData c12members now1).weighted_events.map
        (fun w => w.final_weight)) = some [1 / 2, 2 / 15]
    rw [c12_weighted1]
    rfl

/-- C6 (amended): re-running the analysis on an identical batch at the
same wall-clock instant yields an identical result, and the cluster
membership — which user's events carry which cluster label — does not
depend on the instant at all: the clusterView of the result is the same
for any two instants.  (The per-event weights, by contrast, do depend on
the instant: see the C6 counterexample.) -/
theorem c6_theorem (records : List RawRecord) (n1 n2 : Int) :
    clusterView (processKalmanClusterFusion records n1)
      = clusterView (processKalmanClusterFusion records n2) := by
  by_cases h : records = []
  · subst h; rfl
  by_cases hall : records.all (fun r => r.event_type.isNone) = true
  · rw [allNone_run records n1 h hall, allNone_run records n2 h hall]
  · rw [run_eq records n1 h (bool_eq_false hall),
      run_eq records n2 h (bool_eq_false hall)]
    show some ((userResultsOf records n1).map (fun u =>
        (u.user_id, u.weighted_events.map (fun w => (w.timestamp, w.cluster)))))
      = some ((userResultsOf records n2).map (fun u =>
        (u.user_id, u.weighted_events.map (fun w => (w.timestamp, w.cluster)))))
    congr 1
    unfold userResultsOf
    rw [List.map_map, List.map_map]
    apply List.map_congr_left
    intro u _
    show ((processUserData
          ((dfOf records).filter (fun e => decide (e.user_id = u))) n1).user_id,
        (processUserData
          ((dfOf records).filter (fun e => decide (e.user_id = u)))
            n1).weighted_events.map (fun w => (w.timestamp, w.cluster)))
      = ((processUserData
          ((dfOf records).filter (fun e => decide (e.user_id = u))) n2).user_id,
        (processUserData
          ((dfOf records).filter (fun e => decide (e.user_id = u)))
            n2).weighted_events.map (fun w => (w.timestamp, w.cluster)))
    rw [processUserData_userId, processUserData_userId, processUserData_weighted,
      processUserData_weighted, weightedView, weightedView]

/-- C7 (confirmed): noise events never influence cluster predictions
(hence cluster confidences) or cluster_info: deleting all noise-labelled
events from a user's data leaves `cluster_predictions` unchanged, and
deleting them from the batch leaves `get_cluster_info` (centroids,
bounding boxes, member counts) unchanged; moreover no ClusterPrediction
ever carries the noise id -1. -/
theorem c7_theorem (events : List LabeledEvent) (now : Int) :
    (processUserData (events.filter (fun e => decide (e.cluster ≠ -1)))
        now).cluster_predictions
      = (processUserData events now).cluster_predictions
    ∧ getClusterInfo (events.filter (fun e => decide (e.cluster ≠ -1)))
      = getClusterInfo events
    ∧ ∀ p ∈ (processUserData events now).cluster_predictions,
        p.cluster_id ≠ -1 := by
  refine ⟨?_, ?_, ?_⟩
  · rw [processUserData_predictions, processUserData_predictions, filter_idem]
  · unfold getClusterInfo
    rw [map_cluster_filter (fun c => decide (c ≠ -1)) events]
    rw [uniques_filter]
    have hg : ∀ x : Int, (fun c => decide (c ≠ -1)) x = false →
        (fun cid =>
          if cid = -1 then none
          else
            some (ClusterInfo.mk cid
              ((((events.filter (fun e => decide (e.cluster ≠ -1))).filter
                (fun e => decide (e.cluster = cid)))).length)
              ((uniques (((events.filter (fun e => decide (e.cluster ≠ -1))).filter
                (fun e => decide (e.cluster = cid))).map
                  (fun e => e.user_id))).length)
              (listMean (((events.filter (fun e => decide (e.cluster ≠ -1))).filter
                (fun e => decide (e.cluster = cid))).map (fun e => e.lat)))
              (listMean (((events.filter (fun e => decide (e.cluster ≠ -1))).filter
                (fun e => decide (e.cluster = cid))).map (fun e => e.lon)))
              (listMin (((events.filter (fun e => decide (e.cluster ≠ -1))).filter
                (fun e => decide (e.cluster = cid))).map (fun e => e.lat)))
              (listMax (((events.filter (fun e => decide (e.cluster ≠ -1))).filter
                (fun e => decide (e.cluster = cid))).map (fun e => e.lat)))
              (listMin (((events.filter (fun e => decide (e.cluster ≠ -1))).filter
                (fun e => decide (e.cluster = cid))).map (fun e => e.lon)))
              (listMax (((events.filter (fun e => decide (e.cluster ≠ -1))).filter
                (fun e => decide (e.cluster = cid))).map (fun e => e.lon)))
              (uniques (((events.filter (fun e => decide (e.cluster ≠ -1))).filter
                (fun e => decide (e.cluster = cid))).map
                  (fun e => e.user_id))))) x = none := by
      intro x hx
      have hxeq : x = -1 := by
        have := of_decide_eq_false hx
        by_contra hne
        exact this hne
      simp [hxeq]
    rw [filterMap_filter_of_none _ _ hg]
    congr 1
    funext cid
    by_cases hc : cid = -1
    · simp [hc]
    · rw [if_neg hc, if_neg hc, filter_ne_filter_eq events hc]
  · intro p hp
    rcases mem_clusterPredictions hp with ⟨cid, hmem, hcid⟩
    rcases clusterPredictionFor_spec hcid with ⟨_, hid, _⟩
    rw [hid]
    have hmem2 := mem_uniquesAux _ _ _ hmem
    rcases List.mem_map.mp hmem2 with ⟨e, he, hce⟩
    have := List.mem_filter.mp he
    rw [← hce]
    exact of_decide_eq_true this.2

/-- C8 counterexample: a cluster whose two member events are both 100
hours old has member final weights 0 and 0 (sum 0, the claim's guard
condition), yet the pipeline computes the centroid as the base-weight
(1.0/0.8) weighted average 14513/1125 — not the unweighted mean
25801/2000 the claimed zero-weight fallback would produce.  No such
fallback exists in the code (utils.py lines 168-172 use base weights,
whose sum is never zero). -/
theorem c8_counterexample :
    (c8members.map (fun e => finalWeight e.event_type now0 e.timestamp)).sum = 0
    ∧ (firstPrediction (processKalmanClusterFusion c8batch now0)).map
        (fun p => p.predicted_lat) = some (14513 / 1125)
    ∧ listMean (c8members.map (fun e => e.lat)) = 25801 / 2000
    ∧ (14513 / 1125 : ℚ) ≠ 25801 / 2000 := by
  refine ⟨?_, ?_, ?_, by norm_num⟩
  · norm_num [c8members, finalWeight, ewUpi, ewApp, tdC0, nbC, List.map_cons,
      List.map_nil]
  · rw [firstPrediction, c8_firstUser now0]
    show ((processUserData c8members now0).cluster_predictions.head?).map
        (fun p => p.predicted_lat) = some (14513 / 1125)
    rw [c8_predictions now0]
    rfl
  · norm_num [listMean, c8members, List.map_cons, List.map_nil]

/-- C8 (amended): the centroid computation never divides by zero, but
not because of a zero-weight fallback: the weights actually used are the
event-type base weights, each at least 0.5, so their sum over the
(nonempty) member list of any ClusterPrediction is strictly positive —
even when every member's final_weight is 0. -/
theorem c8_theorem (events : List LabeledEvent) (now : Int)
    (p : ClusterPrediction)
    (hp : p ∈ (processUserData events now).cluster_predictions) :
    clusterMembers events p.cluster_id ≠ []
    ∧ (∀ q ∈ (clusterMembers events p.cluster_id).map
        (fun e => eventWeightsGet e.event_type), 1 / 2 ≤ q)
    ∧ 0 < ((clusterMembers events p.cluster_id).map
        (fun e => eventWeightsGet e.event_type)).sum := by
  rcases mem_clusterPredictions hp with ⟨cid, _, hcid⟩
  rcases clusterPredictionFor_spec hcid with ⟨hne, hid, _⟩
  subst hid
  simp only [clusterMembers]
  refine ⟨hne, ?_, ?_⟩
  · intro q hq
    rcases List.mem_map.mp hq with ⟨e, _, he⟩
    rw [← he]
    exact eventWeightsGet_ge _
  · apply List.sum_pos
    · intro x hx
      rcases List.mem_map.mp hx with ⟨e, _, he⟩
      rw [← he]
      exact lt_of_lt_of_le (by norm_num) (eventWeightsGet_ge _)
    · rw [Ne, List.map_eq_nil_iff]
      exact hne

/-- C8 witness: the amended claim evaluated on the concrete all-expired
cluster `c8members` (both final weights 0, base-weight sum 9/5 > 0). -/
theorem c8_witness :
    clusterMembers c8members cP.cluster_id ≠ []
    ∧ (∀ q ∈ (clusterMembers c8members cP.cluster_id).map
        (fun e => eventWeightsGet e.event_type), 1 / 2 ≤ q)
    ∧ 0 < ((clusterMembers c8members cP.cluster_id).map
        (fun e => eventWeightsGet e.event_type)).sum :=
  c8_theorem c8members now0 cP
    (by rw [c8_predictions now0]; exact List.mem_singleton.mpr rfl)

/-- C9 (confirmed): on the empty batch the entry point returns exactly
the sentinel `{'error': 'No data to process'}` (utils.py lines 40-41) —
in the embedding a value, not an exception — and the sentinel message is
distinct from every caught-exception message, which always starts with
"Processing failed: " (utils.py line 119). -/
theorem c9_theorem (now : Int) :
    processKalmanClusterFusion [] now = .error "No data to process"
    ∧ ∀ s : String,
        ("No data to process" : String) ≠ "Processing failed: " ++ s := by
  refine ⟨rfl, ?_⟩
  intro s h
  have hlen := congrArg String.length h
  rw [String.length_append] at hlen
  rw [show ("No data to process" : String).length = 18 from rfl] at hlen
  rw [show ("Processing failed: " : String).length = 19 from rfl] at hlen
  omega

/-- C10 counterexample: the mixed batch `c10batch` contains a record
with no event_type key, yet the pipeline emits a full report, in which
that record is processed with the default base weight 0.5 (pandas fills
the missing cell with NaN since the other record carries the key, and
`event_weights.get(NaN, 0.5)` defaults): the batch does not fail with a
structured validation error and results are emitted.  A batch in which
no record at all carries the key fails too — but with the generic
caught-KeyError result, not a structured validation error. -/
theorem c10_counterexample :
    isReport (processKalmanClusterFusion c10batch now0) = true
    ∧ firstUserWeightedField (fun w => w.base_weight)
        (processKalmanClusterFusion c10batch now0) = some [1, 1 / 2]
    ∧ processKalmanClusterFusion [c10rec] now0
        = .error "Processing failed: 'event_type'" := by
  refine ⟨?_, ?_, ?_⟩
  · rw [run_eq c10batch now0 (by simp [c10batch]) (by decide)]
    rfl
  · rw [firstUserWeightedField, c10_firstUser now0]
    show some ((processUserData c10members now0).weighted_events.map
        (fun w => w.base_weight)) = some [1, 1 / 2]
    rw [c10_weighted]
    rfl
  · exact allNone_run [c10rec] now0 (by simp) (by decide)

/-- C10 (amended): there is no per-record batch validation.  A nonempty
batch in which at least one record carries the event_type key always
produces a full report — records missing the key are NaN-filled and
processed with the default weight 0.5, with no validation error and no
abort.  Only a nonempty batch in which no record at all carries the key
fails, and then with the generic caught-KeyError result
`{'error': "Processing failed: 'event_type'"}` (utils.py lines 117-119 and
131), not with a structured validation error. -/
theorem c10_theorem (records : List RawRecord) (now : Int)
    (h : records ≠ []) :
    (records.all (fun r => r.event_type.isNone) = false →
      ∃ r : Report, processKalmanClusterFusion records now = .report r)
    ∧ (records.all (fun r => r.event_type.isNone) = true →
      processKalmanClusterFusion records now
        = .error "Processing failed: 'event_type'") :=
  ⟨fun hcol => ⟨_, run_eq records now h hcol⟩,
   fun hall => allNone_run records now h hall⟩

/-- C10 witness: the amended claim evaluated on the mixed batch
`c10batch`, whose second record has no event_type. -/
theorem c10_witness :
    (c10batch.all (fun r => r.event_type.isNone) = false →
      ∃ r : Report, processKalmanClusterFusion c10batch now0 = .report r)
    ∧ (c10batch.all (fun r => r.event_type.isNone) = true →
      processKalmanClusterFusion c10batch now0
        = .error "Processing failed: 'event_type'") :=
  c10_theorem c10batch now0 (by simp [c10batch])

/-- C6 witness: the membership view of the `c12batch` run is the same at
the two concrete instants `now0` and `now1`. -/
theorem c6_witness :
    clusterView (processKalmanClusterFusion c12batch now0)
      = clusterView (processKalmanClusterFusion c12batch now1) :=
  c6_theorem c12batch now0 now1

/-- C7 witness: the noise-invariance evaluated on the concrete labelled
batch `c12members`. -/
theorem c7_witness :
    (processUserData (c12members.filter (fun e => decide (e.cluster ≠ -1)))
        now0).cluster_predictions
      = (processUserData c12members now0).cluster_predictions
    ∧ getClusterInfo (c12members.filter (fun e => decide (e.cluster ≠ -1)))
      = getClusterInfo c12members
    ∧ ∀ p ∈ (processUserData c12members now0).cluster_predictions,
        p.cluster_id ≠ -1 :=
  c7_theorem c12members now0

/-- C9 witness: the empty-batch sentinel at the concrete instant `now0`. -/
theorem c9_witness :
    processKalmanClusterFusion [] now0 = .error "No data to process"
    ∧ ∀ s : String,
        ("No data to process" : String) ≠ "Processing failed: " ++ s :=
  c9_theorem now0

end SBI
